import Mathlib

/-!
Verification development for the Complaint Box intake front-end
(src/app.py): a shallow embedding of its validation and submission
logic, with theorems about the behaviour the specification describes.

Bytes are modelled as natural numbers below 256 (Python bytes objects
are sequences of such values); strings as Lean strings.
-/

namespace ComplaintBox

/-! ## Base64 (model of Python base64.b64encode / b64decode)

Python's base64.b64encode maps each 3-byte group to 4 alphabet
characters and pads the tail with one or two = characters.  We model
the byte-to-sextet packing arithmetically and the alphabet as the
standard RFC 4648 table used by CPython. -/

/-- The standard base64 alphabet, as used by Python base64.b64encode. -/
def b64chars : List Char :=
  "ABCDEFGHIJKLMNOPQRSTUVWXYZabcdefghijklmnopqrstuvwxyz0123456789+/".toList

/-- Character for a 6-bit value. -/
def sextetToChar (n : Nat) : Char := b64chars.getD n 'A'

/-- 6-bit value of an alphabet character (inverse lookup). -/
def charToSextet (c : Char) : Nat := b64chars.indexOf c

/-- Pack a byte sequence into 6-bit groups, exactly as base64 does:
each 3-byte block becomes 4 sextets; a tail of 1 or 2 bytes becomes
2 or 3 sextets with zero-filled low bits. -/
def bytesToSextets : List Nat → List Nat
  | [] => []
  | [a] => [a / 4, a % 4 * 16]
  | [a, b] => [a / 4, a % 4 * 16 + b / 16, b % 16 * 4]
  | a :: b :: c :: rest =>
      a / 4 :: (a % 4 * 16 + b / 16) :: (b % 16 * 4 + c / 64) :: c % 64 ::
        bytesToSextets rest

/-- Padding characters appended by base64.b64encode, determined by the
byte count modulo 3. -/
def b64pad (n : Nat) : List Char :=
  if n % 3 = 1 then ['=', '='] else if n % 3 = 2 then ['='] else []

/-- Model of Python base64.b64encode (followed by .decode, i.e. as a
character string). -/
def b64encodeBytes (bs : List Nat) : List Char :=
  (bytesToSextets bs).map sextetToChar ++ b64pad bs.length

/-- Unpack 6-bit groups back into bytes (inverse of bytesToSextets). -/
def sextetsToBytes : List Nat → List Nat
  | s1 :: s2 :: s3 :: s4 :: rest =>
      (s1 * 4 + s2 / 16) :: (s2 % 16 * 16 + s3 / 4) :: (s3 % 4 * 64 + s4) ::
        sextetsToBytes rest
  | [s1, s2, s3] => [s1 * 4 + s2 / 16, s2 % 16 * 16 + s3 / 4]
  | [s1, s2] => [s1 * 4 + s2 / 16]
  | _ => []

/-- Model of Python base64.b64decode: drop padding, map characters back
to sextets, unpack. -/
def b64decodeChars (cs : List Char) : List Nat :=
  sextetsToBytes (((cs.filter fun c => c != '=').map charToSextet))

/-! ### Base64 round-trip lemmas -/

theorem charToSextet_sextetToChar : ∀ n : Fin 64,
    charToSextet (sextetToChar n.val) = n.val := by decide

theorem sextetToChar_ne_pad : ∀ n : Fin 64, sextetToChar n.val ≠ '=' := by
  decide

theorem bytesToSextets_lt (bs : List Nat) (hb : ∀ x ∈ bs, x < 256) :
    ∀ s ∈ bytesToSextets bs, s < 64 := by
  induction bs using bytesToSextets.induct with
  | case1 => simp [bytesToSextets]
  | case2 a =>
      have := hb a (by simp)
      simp only [bytesToSextets, List.mem_cons, List.not_mem_nil, or_false]
      rintro s (rfl | rfl) <;> omega
  | case3 a b =>
      have ha := hb a (by simp)
      have hbb := hb b (by simp)
      simp only [bytesToSextets, List.mem_cons, List.not_mem_nil, or_false]
      rintro s (rfl | rfl | rfl) <;> omega
  | case4 a b c rest ih =>
      have ha := hb a (by simp)
      have hbb := hb b (by simp)
      have hc := hb c (by simp)
      have hrest : ∀ x ∈ rest, x < 256 := fun x hx => hb x (by simp [hx])
      simp only [bytesToSextets, List.mem_cons]
      rintro s (rfl | rfl | rfl | rfl | hs)
      · omega
      · omega
      · omega
      · omega
      · exact ih hrest s hs

theorem sextetsToBytes_bytesToSextets (bs : List Nat)
    (hb : ∀ x ∈ bs, x < 256) :
    sextetsToBytes (bytesToSextets bs) = bs := by
  induction bs using bytesToSextets.induct with
  | case1 => rfl
  | case2 a =>
      have := hb a (by simp)
      simp only [bytesToSextets, sextetsToBytes, List.cons.injEq, and_true]
      omega
  | case3 a b =>
      have ha := hb a (by simp)
      have hbb := hb b (by simp)
      simp only [bytesToSextets, sextetsToBytes, List.cons.injEq, and_true]
      omega
  | case4 a b c rest ih =>
      have ha := hb a (by simp)
      have hbb := hb b (by simp)
      have hc := hb c (by simp)
      have hrest : ∀ x ∈ rest, x < 256 := fun x hx => hb x (by simp [hx])
      simp only [bytesToSextets, sextetsToBytes, ih hrest, List.cons.injEq,
        and_true, true_and]
      omega

theorem filter_pad (n : Nat) :
    (b64pad n).filter (fun c => c != '=') = [] := by
  unfold b64pad
  split <;> [skip; split] <;> simp

theorem b64_roundtrip (bs : List Nat) (hb : ∀ x ∈ bs, x < 256) :
    b64decodeChars (b64encodeBytes bs) = bs := by
  have hlt := bytesToSextets_lt bs hb
  have hfilter :
      ((bytesToSextets bs).map sextetToChar).filter (fun c => c != '=') =
        (bytesToSextets bs).map sextetToChar := by
    apply List.filter_eq_self.mpr
    intro c hc
    obtain ⟨s, hs, rfl⟩ := List.mem_map.mp hc
    have := sextetToChar_ne_pad ⟨s, hlt s hs⟩
    simpa using this
  have hmap :
      ((bytesToSextets bs).map sextetToChar).map charToSextet =
        bytesToSextets bs := by
    rw [List.map_map]
    have : ∀ s ∈ bytesToSextets bs, (charToSextet ∘ sextetToChar) s = id s :=
      fun s hs => charToSextet_sextetToChar ⟨s, hlt s hs⟩
    rw [List.map_congr_left this, List.map_id]
  unfold b64decodeChars b64encodeBytes
  rw [List.filter_append, hfilter, filter_pad, List.append_nil, hmap,
    sextetsToBytes_bytesToSextets bs hb]

/-! ## Data model (src/app.py)

An uploaded file as Streamlit hands it to the script: its name, its
optional MIME type, and the bytes returned by getvalue(). -/

structure UploadedFile where
  name : String
  type : Option String
  content : List Nat
  deriving Repr, DecidableEq

/-- Bytes are values below 256. -/
def UploadedFile.wf (f : UploadedFile) : Prop := ∀ x ∈ f.content, x < 256

instance (f : UploadedFile) : Decidable f.wf := by
  unfold UploadedFile.wf
  infer_instance

/-- The Attachment payload record built per accepted file (pydantic
model Attachment in src/app.py; the field constraints live in
attachmentErrors below). -/
structure Attachment where
  filename : String
  content_type : Option String
  size_bytes : Nat
  content_base64 : String
  deriving Repr, DecidableEq

/-- The ComplaintSubmission payload (pydantic model in src/app.py; the
field constraints live in pydanticErrors below). -/
structure ComplaintSubmission where
  name : String
  email : String
  subject : String
  complaint : String
  priority : String
  timestamp : String
  attachments : List Attachment
  deriving Repr, DecidableEq

/-- 5 MB per-file limit: max_file_size = 5 * 1024 * 1024 in src/app.py. -/
def max_file_size : Nat := 5 * 1024 * 1024

/-- The per-file oversize message f-string from src/app.py. -/
def oversizeMsg (filename : String) : String :=
  "❌ " ++ filename ++ " exceeds 5 MB limit."

/-- The file_data dict built for an accepted file in src/app.py:
filename, content_type, size_bytes = len(file_content), and
content_base64 = base64.b64encode(file_content).decode. -/
def file_data (f : UploadedFile) : Attachment :=
  { filename := f.name
    content_type := f.type
    size_bytes := f.content.length
    content_base64 := String.mk (b64encodeBytes f.content) }

/-- The upload-processing loop of src/app.py: files over
max_file_size contribute an error message, the rest contribute an
attachment; order is preserved in both lists. -/
def processFiles : List UploadedFile → List String × List Attachment
  | [] => ([], [])
  | f :: rest =>
      let p := processFiles rest
      if f.content.length > max_file_size then
        (oversizeMsg f.name :: p.1, p.2)
      else
        (p.1, file_data f :: p.2)

/-! ## Form state and validation -/

/-- The session-state keys read and written by src/app.py. -/
structure FormState where
  name_input : String
  email_input : String
  subject_input : String
  complaint_input : String
  priority_input : String
  uploaded_files : Option (List UploadedFile)
  deriving Repr, DecidableEq

/-- The state after clear_form_state() in src/app.py: every text field
empty, priority Low, no uploaded files (also the initial defaults). -/
def clear_form_state : FormState :=
  { name_input := ""
    email_input := ""
    subject_input := ""
    complaint_input := ""
    priority_input := "Low"
    uploaded_files := none }

/-- Python truthiness of the uploaded_files value: None and the empty
list are falsy. -/
def filesTruthy : Option (List UploadedFile) → Bool
  | none => false
  | some l => !l.isEmpty

/-- Drop leading and trailing whitespace characters. -/
def stripList (s : List Char) : List Char :=
  ((s.dropWhile Char.isWhitespace).reverse.dropWhile Char.isWhitespace).reverse

/-- Model of Python str.strip(): remove surrounding whitespace. -/
def pystrip (s : String) : String := String.mk (stripList s.data)

/-- Split a character list on a separator character. -/
def splitOnChar (sep : Char) : List Char → List (List Char)
  | [] => [[]]
  | c :: rest =>
      let r := splitOnChar sep rest
      if c = sep then [] :: r
      else (c :: r.headD []) :: r.tail

/-- Modelled from the spec: pydantic EmailStr requires email-address
syntax (the EmailStr validator is library code, not in src/).
Simplified to: a single @ separating a nonempty local part from a
domain of at least two nonempty dot-separated labels. -/
def emailOk (s : String) : Bool :=
  match splitOnChar '@' s.data with
  | [l, d] =>
      !l.isEmpty && decide ((splitOnChar '.' d).length ≥ 2)
        && (splitOnChar '.' d).all fun p => !p.isEmpty
  | _ => false

/-- Constraint check for one Attachment (Field declarations on the
Attachment model in src/app.py); error text abridged. -/
def attachmentErrors (a : Attachment) : List String :=
  (if 1 ≤ a.filename.length ∧ a.filename.length ≤ 255 then []
   else ["attachments -> filename: invalid length"]) ++
  (if a.size_bytes ≤ max_file_size then []
   else ["attachments -> size_bytes: exceeds limit"])

/-- Constraint check for ComplaintSubmission (Field declarations on
the pydantic model in src/app.py: name 2..100 chars, EmailStr,
subject 3..200, complaint 10..2000, priority in the fixed set,
attachments nonempty, each attachment valid); error text abridged. -/
def pydanticErrors (c : ComplaintSubmission) : List String :=
  (if 2 ≤ c.name.length ∧ c.name.length ≤ 100 then []
   else ["name: invalid length"]) ++
  (if emailOk c.email then [] else ["email: invalid format"]) ++
  (if 3 ≤ c.subject.length ∧ c.subject.length ≤ 200 then []
   else ["subject: invalid length"]) ++
  (if 10 ≤ c.complaint.length ∧ c.complaint.length ≤ 2000 then []
   else ["complaint: invalid length"]) ++
  (if c.priority ∈ ["Low", "Medium", "High", "Urgent"] then []
   else ["priority: invalid value"]) ++
  (if 1 ≤ c.attachments.length then [] else ["attachments: too short"]) ++
  c.attachments.flatMap attachmentErrors

/-- The distinct ways validation of one submission attempt can end in
src/app.py, one constructor per branch of the handler. -/
inductive ValidateResult where
  | requiredFields
  | attachmentRequired
  | fileErrors (msgs : List String)
  | attachmentEmptyAfterFilter
  | structuralErrors (msgs : List String)
  | ok (sub : ComplaintSubmission)
  deriving Repr, DecidableEq

/-- The candidate payload form_data of src/app.py: text fields
stripped, priority and timestamp as given, attachments from
processFiles. -/
def form_data (s : FormState) (now : String) : ComplaintSubmission :=
  { name := pystrip s.name_input
    email := pystrip s.email_input
    subject := pystrip s.subject_input
    complaint := pystrip s.complaint_input
    priority := s.priority_input
    timestamp := now
    attachments := (processFiles (s.uploaded_files.getD [])).2 }

/-- The validation stage of the submit handler in src/app.py
(lines 136-183): the early required-field checks on the raw values,
the per-file size loop, the filtered-to-empty guard, then pydantic
validation of the assembled payload. -/
def validate (s : FormState) (now : String) : ValidateResult :=
  if s.name_input = "" || s.email_input = "" || s.subject_input = ""
      || s.complaint_input = "" then
    .requiredFields
  else if !filesTruthy s.uploaded_files then
    .attachmentRequired
  else if (processFiles (s.uploaded_files.getD [])).1 ≠ [] then
    .fileErrors (processFiles (s.uploaded_files.getD [])).1
  else if (form_data s now).attachments.length = 0 then
    .attachmentEmptyAfterFilter
  else
    match pydanticErrors (form_data s now) with
    | [] => .ok (form_data s now)
    | errs => .structuralErrors errs

/-! ## Submission and outcome classification -/

/-- What the network does to the single POST: a response with a status
code and body, a timeout, a connection-level failure
(requests.exceptions.RequestException other than Timeout), or any
other exception. -/
inductive NetResult where
  | response (status : Nat) (body : String)
  | timeout
  | connError (msg : String)
  | otherError (msg : String)
  deriving Repr, DecidableEq

/-- The closed set of user-visible results of one submission attempt,
one constructor per message branch of src/app.py. -/
inductive Outcome where
  | requiredFieldsError
  | attachmentRequiredError
  | fileSizeError (msgs : List String)
  | validationIssues (msgs : List String)
  | success
  | unexpectedStatus (code : Nat) (body : String)
  | timeoutError
  | transportError (msg : String)
  | unknownError (msg : String)
  deriving Repr, DecidableEq

/-- Response handling and except clauses of src/app.py (lines
189-209): status 200 is success, any other status is the
warning-with-status branch, Timeout, RequestException and Exception
each have their own handler. -/
def classify : NetResult → Outcome
  | .response status body =>
      if status = 200 then .success else .unexpectedStatus status body
  | .timeout => .timeoutError
  | .connError m => .transportError m
  | .otherError m => .unknownError m

/-- The outcomes the submitter itself can produce (§4.2 of the spec). -/
def isSubmitOutcome : Outcome → Prop
  | .success => True
  | .unexpectedStatus _ _ => True
  | .timeoutError => True
  | .transportError _ => True
  | .unknownError _ => True
  | _ => False

instance (o : Outcome) : Decidable (isSubmitOutcome o) := by
  unfold isSubmitOutcome
  cases o <;> simp <;> infer_instance

/-- The st.* message calls src/app.py makes for each outcome, in
order. -/
def renderOutcome : Outcome → List String
  | .requiredFieldsError =>
      ["⚠️ Please fill in all required fields (marked with *)"]
  | .attachmentRequiredError =>
      ["⚠️ Please attach at least one supporting document (required)."]
  | .fileSizeError msgs => [String.intercalate "\n" msgs]
  | .validationIssues msgs =>
      ["Validation issues:\n" ++ String.intercalate "\n" msgs]
  | .success => ["✅ Your complaint has been submitted successfully!"]
  | .unexpectedStatus code body =>
      ["⚠️ Submission received with status code: " ++ toString code,
       "Response: " ++ body]
  | .timeoutError => ["⏱️ Request timed out. Please try again."]
  | .transportError m => ["❌ An error occurred while submitting: " ++ m]
  | .unknownError m => ["❌ Unexpected error: " ++ m]

/-- One full submit-button press in src/app.py: validation, then (only
when it passed) the POST with outcome classification, then
clear_form_state on status 200 only.  Returns the outcome, the form
state afterwards, and whether requests.post was executed. -/
def handleSubmit (s : FormState) (now : String) (net : NetResult) :
    Outcome × FormState × Bool :=
  match validate s now with
  | .requiredFields => (.requiredFieldsError, s, false)
  | .attachmentRequired => (.attachmentRequiredError, s, false)
  | .fileErrors msgs => (.fileSizeError msgs, s, false)
  | .attachmentEmptyAfterFilter => (.attachmentRequiredError, s, false)
  | .structuralErrors msgs => (.validationIssues msgs, s, false)
  | .ok _ =>
      let out := classify net
      (out, if out = .success then clear_form_state else s, true)

/-! ## Structural lemmas about the file-processing loop -/

theorem processFiles_fst (files : List UploadedFile) :
    (processFiles files).1 =
      (files.filter fun f => decide (f.content.length > max_file_size)).map
        fun f => oversizeMsg f.name := by
  induction files with
  | nil => rfl
  | cons f rest ih =>
      simp only [processFiles, List.filter_cons]
      by_cases h : f.content.length > max_file_size
      · simp [h, ih]
      · simp [h, ih]

theorem processFiles_snd (files : List UploadedFile) :
    (processFiles files).2 =
      (files.filter fun f => !decide (f.content.length > max_file_size)).map
        file_data := by
  induction files with
  | nil => rfl
  | cons f rest ih =>
      simp only [processFiles, List.filter_cons]
      by_cases h : f.content.length > max_file_size
      · simp [h, ih]
      · simp [h, ih]

theorem processFiles_length (files : List UploadedFile) :
    (processFiles files).1.length + (processFiles files).2.length =
      files.length := by
  induction files with
  | nil => rfl
  | cons f rest ih =>
      simp only [processFiles]
      by_cases h : f.content.length > max_file_size
      · simp only [if_pos h, List.length_cons]
        omega
      · simp only [if_neg h, List.length_cons]
        omega

theorem processFiles_mem_snd (files : List UploadedFile)
    (a : Attachment) (ha : a ∈ (processFiles files).2) :
    ∃ f ∈ files, f.content.length ≤ max_file_size ∧ a = file_data f := by
  rw [processFiles_snd] at ha
  obtain ⟨f, hf, rfl⟩ := List.mem_map.mp ha
  obtain ⟨hmem, hle⟩ := List.mem_filter.mp hf
  refine ⟨f, hmem, ?_, rfl⟩
  simp only [Bool.not_eq_eq_eq_not, Bool.not_true, decide_eq_false_iff_not,
    gt_iff_lt, not_lt] at hle
  exact hle

theorem processFiles_size_le (files : List UploadedFile)
    (a : Attachment) (ha : a ∈ (processFiles files).2) :
    a.size_bytes ≤ max_file_size := by
  obtain ⟨f, _, hle, rfl⟩ := processFiles_mem_snd files a ha
  exact hle

/-! ## Lemmas about validate -/

theorem pydanticErrors_nil (c : ComplaintSubmission)
    (h : pydanticErrors c = []) :
    2 ≤ c.name.length ∧ emailOk c.email = true ∧ 3 ≤ c.subject.length ∧
      10 ≤ c.complaint.length ∧ 1 ≤ c.attachments.length := by
  unfold pydanticErrors at h
  split_ifs at h <;> simp_all

theorem validate_ok_eq (s : FormState) (now : String)
    (sub : ComplaintSubmission) (h : validate s now = .ok sub) :
    sub = form_data s now ∧ pydanticErrors (form_data s now) = [] ∧
      (processFiles (s.uploaded_files.getD [])).1 = [] := by
  unfold validate at h
  split_ifs at h with h1 h2 h3 h4
  split at h
  · rename_i heq
    refine ⟨?_, heq, by simpa using h3⟩
    injection h with h
    exact h.symm
  · exact ValidateResult.noConfusion h

theorem classify_submitOutcome (net : NetResult) :
    isSubmitOutcome (classify net) := by
  cases net with
  | response status body =>
      show isSubmitOutcome
        (if status = 200 then .success else .unexpectedStatus status body)
      split <;> trivial
  | timeout => trivial
  | connError m => trivial
  | otherError m => trivial

/-! ## Concrete instances used in witnesses and counterexamples -/

/-- A small well-formed uploaded file. -/
def demoFile : UploadedFile :=
  { name := "invoice.pdf", type := some "application/pdf",
    content := [1, 2, 3] }

/-- A form state that passes every validation step. -/
def demoState : FormState :=
  { name_input := " Jane "
    email_input := "jane@x.com"
    subject_input := "Broken unit"
    complaint_input := "It stopped working after one week of use."
    priority_input := "High"
    uploaded_files := some [demoFile] }

/-- A file of exactly 5,242,880 bytes (at the limit). -/
def limitFile : UploadedFile :=
  { name := "limit.pdf", type := none, content := List.replicate 5242880 0 }

/-- A file of 5,242,881 bytes (one byte over the limit). -/
def overFile (nm : String) : UploadedFile :=
  { name := nm, type := none, content := List.replicate 5242881 0 }

/-! ## The claims -/

/-- C1, counterexample to the single-message clause: the non-200
branch of src/app.py emits two user-visible messages, st.warning with
the status code and st.info with the body. -/
theorem C1_counterexample :
    (renderOutcome (.unexpectedStatus 500 "Internal Server Error")).length
        = 2 ∧
    1 < (renderOutcome
        (.unexpectedStatus 500 "Internal Server Error")).length := by
  constructor <;> decide

/-- C1, amended: every outcome of the POST is classified into exactly
one of five result kinds — status 200 is Success, any other status is
UnexpectedStatus with the code and body (never Success), no response
in time is Timeout, a connection-level failure is TransportError, any
other failure is UnknownError — and every kind produces exactly one
user-visible message except UnexpectedStatus, which produces two (a
warning with the status code and an info with the raw body). -/
theorem C1_outcome_classification (status : Nat) (body m : String)
    (net : NetResult) :
    classify (.response 200 body) = .success ∧
    (status ≠ 200 →
      classify (.response status body) = .unexpectedStatus status body ∧
      classify (.response status body) ≠ .success) ∧
    classify .timeout = .timeoutError ∧
    classify (.connError m) = .transportError m ∧
    classify (.otherError m) = .unknownError m ∧
    isSubmitOutcome (classify net) ∧
    (renderOutcome .success).length = 1 ∧
    (renderOutcome .timeoutError).length = 1 ∧
    (renderOutcome (.transportError m)).length = 1 ∧
    (renderOutcome (.unknownError m)).length = 1 ∧
    (renderOutcome (.unexpectedStatus status body)).length = 2 := by
  refine ⟨rfl, ?_, rfl, rfl, rfl, classify_submitOutcome net,
    rfl, rfl, rfl, rfl, rfl⟩
  intro h
  constructor
  · simp [classify, h]
  · simp [classify, h]

/-- C1 witness: a 500 response is classified as UnexpectedStatus. -/
theorem C1_outcome_classification_witness :
    classify (.response 500 "Internal Server Error") =
      .unexpectedStatus 500 "Internal Server Error" :=
  ((C1_outcome_classification 500 "Internal Server Error" "m"
      .timeout).2.1 (by decide)).1

/-- C2: a file of exactly 5,242,880 bytes is accepted into the
attachment list; a file of 5,242,881 bytes or more is rejected with
the per-file oversize message and excluded from the attachment
list. -/
theorem C2_size_boundary (files : List UploadedFile) (f : UploadedFile)
    (hf : f ∈ files) :
    max_file_size = 5242880 ∧
    (f.content.length = 5242880 → file_data f ∈ (processFiles files).2) ∧
    (5242881 ≤ f.content.length →
      oversizeMsg f.name ∈ (processFiles files).1 ∧
      file_data f ∉ (processFiles files).2) := by
  refine ⟨rfl, ?_, ?_⟩
  · intro hlen
    rw [processFiles_snd]
    exact List.mem_map_of_mem _
      (List.mem_filter.mpr ⟨hf, by simp [hlen, max_file_size]⟩)
  · intro hlen
    constructor
    · rw [processFiles_fst]
      have : f ∈ files.filter fun f =>
          decide (f.content.length > max_file_size) :=
        List.mem_filter.mpr ⟨hf, by simp [max_file_size]; omega⟩
      exact List.mem_map_of_mem _ this
    · intro hmem
      have hle := processFiles_size_le files _ hmem
      have : (file_data f).size_bytes = f.content.length := rfl
      rw [this] at hle
      have : max_file_size = 5242880 := rfl
      omega

theorem limitFile_len : limitFile.content.length = 5242880 :=
  List.length_replicate 5242880 0

theorem overFile_len (nm : String) :
    (overFile nm).content.length = 5242881 :=
  List.length_replicate 5242881 0

/-- C2 witness: with one at-limit file and one one-byte-over file, the
first is accepted and the second produces the oversize message. -/
theorem C2_size_boundary_witness :
    file_data limitFile ∈
      (processFiles [limitFile, overFile "big.pdf"]).2 ∧
    oversizeMsg (overFile "big.pdf").name ∈
      (processFiles [limitFile, overFile "big.pdf"]).1 := by
  constructor
  · exact (C2_size_boundary [limitFile, overFile "big.pdf"] limitFile
      (List.mem_cons_self _ _)).2.1 limitFile_len
  · exact ((C2_size_boundary [limitFile, overFile "big.pdf"]
      (overFile "big.pdf")
      (List.mem_cons_of_mem _ (List.mem_cons_self _ _))).2.2
      (le_of_eq (overFile_len "big.pdf").symm)).1

/-- A form state whose name is whitespace-only (blank but not empty). -/
def blankNameState : FormState := { demoState with name_input := " " }

/-- C3, counterexample: a whitespace-only name passes the early
required-field check of src/app.py (Python not-name is false for a
nonempty string), so the submission is not rejected immediately with
the generic required-field error; it reaches payload construction and
fails structural validation instead. -/
theorem C3_counterexample :
    validate blankNameState "2024-05-01T10:00:00" =
      .structuralErrors ["name: invalid length"] := by decide

/-- C3, amended: a submission in which any of name, email, subject,
complaint is the empty string is rejected immediately with the single
generic required-field error; one whose fields are nonempty but with
no files supplied is rejected with the single generic
attachment-required error; and a whitespace-only (blank) field
instead passes the fast path but still never yields a validated
ComplaintSubmission, the structural validation rejecting it. -/
theorem C3_required_fields (s : FormState) (now : String) :
    ((s.name_input = "" ∨ s.email_input = "" ∨ s.subject_input = ""
        ∨ s.complaint_input = "") →
      validate s now = .requiredFields ∧
      (renderOutcome .requiredFieldsError).length = 1) ∧
    ((s.name_input ≠ "" ∧ s.email_input ≠ "" ∧ s.subject_input ≠ ""
        ∧ s.complaint_input ≠ "") → filesTruthy s.uploaded_files = false →
      validate s now = .attachmentRequired ∧
      (renderOutcome .attachmentRequiredError).length = 1) ∧
    ((pystrip s.name_input = "" ∨ pystrip s.email_input = ""
        ∨ pystrip s.subject_input = "" ∨ pystrip s.complaint_input = "") →
      ∀ sub, validate s now ≠ .ok sub) := by
  refine ⟨?_, ?_, ?_⟩
  · intro hd
    refine ⟨?_, rfl⟩
    unfold validate
    rw [if_pos]
    rcases hd with h | h | h | h <;> simp [h]
  · intro hne hft
    refine ⟨?_, rfl⟩
    unfold validate
    rw [if_neg, if_pos]
    · simp [hft]
    · simp [hne.1, hne.2.1, hne.2.2.1, hne.2.2.2]
  · intro hblank sub hok
    obtain ⟨_, hnil, _⟩ := validate_ok_eq s now sub hok
    have hp := pydanticErrors_nil _ hnil
    rcases hblank with h | h | h | h
    · have : (form_data s now).name = pystrip s.name_input := rfl
      rw [this, h] at hp
      simp at hp
    · have : (form_data s now).email = pystrip s.email_input := rfl
      rw [this, h] at hp
      have : emailOk "" = false := by decide
      simp [this] at hp
    · have : (form_data s now).subject = pystrip s.subject_input := rfl
      rw [this, h] at hp
      simp at hp
    · have : (form_data s now).complaint = pystrip s.complaint_input := rfl
      rw [this, h] at hp
      simp at hp

/-- C3 witness: an empty name takes the required-field branch; a
fields-filled state with no files takes the attachment branch. -/
theorem C3_required_fields_witness :
    validate { demoState with name_input := "" } "t" = .requiredFields ∧
    validate { demoState with uploaded_files := none } "t" =
      .attachmentRequired := by
  constructor
  · exact ((C3_required_fields { demoState with name_input := "" } "t").1
      (Or.inl rfl)).1
  · exact ((C3_required_fields { demoState with uploaded_files := none }
      "t").2.1 (by refine ⟨?_, ?_, ?_, ?_⟩ <;> decide) rfl).1

/-- C4: the size loop records one error for every oversized file (the
error list is exactly the oversize message of each file over the
limit, in order), the error branch shows them as one message joined
together, and a submission with any oversized file never validates. -/
theorem C4_all_file_errors (files : List UploadedFile) (s : FormState)
    (now : String) :
    (processFiles files).1 =
      (files.filter fun f => decide (f.content.length > max_file_size)).map
        (fun f => oversizeMsg f.name) ∧
    (∀ f ∈ files, f.content.length > max_file_size →
      oversizeMsg f.name ∈ (processFiles files).1) ∧
    (renderOutcome (.fileSizeError (processFiles files).1)).length = 1 ∧
    (∀ sub, validate s now = .ok sub →
      ∀ f ∈ s.uploaded_files.getD [],
        f.content.length ≤ max_file_size) := by
  refine ⟨processFiles_fst files, ?_, rfl, ?_⟩
  · intro f hf hover
    rw [processFiles_fst]
    exact List.mem_map_of_mem _
      (List.mem_filter.mpr ⟨hf, by simpa using hover⟩)
  · intro sub hok f hf
    obtain ⟨_, _, herr⟩ := validate_ok_eq s now sub hok
    rw [processFiles_fst] at herr
    have := List.filter_eq_nil_iff.mp (List.map_eq_nil_iff.mp herr) f hf
    simpa using this

/-- C4 witness: three files each one byte over the limit yield three
distinct per-file errors, not just the first. -/
theorem C4_all_file_errors_witness :
    (processFiles [overFile "a.pdf", overFile "b.pdf", overFile "c.pdf"]).1
      = [oversizeMsg "a.pdf", oversizeMsg "b.pdf", oversizeMsg "c.pdf"] ∧
    [oversizeMsg "a.pdf", oversizeMsg "b.pdf",
      oversizeMsg "c.pdf"].Nodup := by
  constructor
  · rw [(C4_all_file_errors
      [overFile "a.pdf", overFile "b.pdf", overFile "c.pdf"]
      demoState "t").1]
    have h : ∀ nm,
        decide ((overFile nm).content.length > max_file_size) = true := by
      intro nm
      rw [overFile_len]
      decide
    have hfil :
        List.filter (fun f => decide (f.content.length > max_file_size))
          [overFile "a.pdf", overFile "b.pdf", overFile "c.pdf"] =
          [overFile "a.pdf", overFile "b.pdf", overFile "c.pdf"] := by
      apply List.filter_eq_self.mpr
      intro f hf
      rcases List.mem_cons.mp hf with rfl | hf
      · exact h "a.pdf"
      rcases List.mem_cons.mp hf with rfl | hf
      · exact h "b.pdf"
      rcases List.mem_cons.mp hf with rfl | hf
      · exact h "c.pdf"
      exact ((List.not_mem_nil f) hf).elim
    rw [hfil]
    rfl
  · decide

/-- C5: a submission attempt that fails any validation never issues
the POST, and whenever the POST is issued the result reaching the
user is one of the five classified submit outcomes, never a raw
exception. -/
theorem C5_no_post_on_invalid (s : FormState) (now : String)
    (net : NetResult) :
    ((∀ sub, validate s now ≠ .ok sub) →
      (handleSubmit s now net).2.2 = false) ∧
    ((handleSubmit s now net).2.2 = true →
      isSubmitOutcome (handleSubmit s now net).1) := by
  constructor
  · intro hno
    rcases hv : validate s now with _ | _ | m | _ | m | sub
    · simp [handleSubmit, hv]
    · simp [handleSubmit, hv]
    · simp [handleSubmit, hv]
    · simp [handleSubmit, hv]
    · simp [handleSubmit, hv]
    · exact absurd hv (hno sub)
  · intro hp
    rcases hv : validate s now with _ | _ | m | _ | m | sub
    · simp [handleSubmit, hv] at hp
    · simp [handleSubmit, hv] at hp
    · simp [handleSubmit, hv] at hp
    · simp [handleSubmit, hv] at hp
    · simp [handleSubmit, hv] at hp
    · have h1 : (handleSubmit s now net).1 = classify net := by
        simp [handleSubmit, hv]
      rw [h1]
      exact classify_submitOutcome net

/-- C5 witness: an invalid state (empty name) never posts; after the
valid demo state posts, the outcome of a 500 response is a classified
submit outcome. -/
theorem C5_no_post_on_invalid_witness :
    (handleSubmit { demoState with name_input := "" } "t"
        (.response 200 "ok")).2.2 = false ∧
    isSubmitOutcome (handleSubmit demoState "t"
        (.response 500 "oops")).1 := by
  constructor
  · exact (C5_no_post_on_invalid { demoState with name_input := "" } "t"
      (.response 200 "ok")).1 (fun sub h => nomatch h)
  · exact (C5_no_post_on_invalid demoState "t" (.response 500 "oops")).2
      rfl

/-- C6: only a Success outcome resets the form state to the defaults
(empty text fields, priority Low, no files); after every other
outcome the form state is unchanged. -/
theorem C6_reset_on_success_only (s : FormState) (now : String)
    (net : NetResult) :
    clear_form_state =
      { name_input := "", email_input := "", subject_input := "",
        complaint_input := "", priority_input := "Low",
        uploaded_files := none } ∧
    ((handleSubmit s now net).1 = .success →
      (handleSubmit s now net).2.1 = clear_form_state) ∧
    ((handleSubmit s now net).1 ≠ .success →
      (handleSubmit s now net).2.1 = s) := by
  refine ⟨rfl, ?_, ?_⟩
  · intro h
    rcases hv : validate s now with _ | _ | m | _ | m | sub
    · simp [handleSubmit, hv] at h
    · simp [handleSubmit, hv] at h
    · simp [handleSubmit, hv] at h
    · simp [handleSubmit, hv] at h
    · simp [handleSubmit, hv] at h
    · have h1 : classify net = .success := by
        simpa [handleSubmit, hv] using h
      simp [handleSubmit, hv, h1]
  · intro h
    rcases hv : validate s now with _ | _ | m | _ | m | sub
    · simp [handleSubmit, hv]
    · simp [handleSubmit, hv]
    · simp [handleSubmit, hv]
    · simp [handleSubmit, hv]
    · simp [handleSubmit, hv]
    · have h1 : ¬classify net = .success := by
        intro hc
        exact h (by simp [handleSubmit, hv, hc])
      simp [handleSubmit, hv, h1]

/-- C6 witness: a 200 response resets the demo state to the defaults;
a 500 response leaves it unchanged. -/
theorem C6_reset_on_success_only_witness :
    (handleSubmit demoState "t" (.response 200 "ok")).2.1 =
      clear_form_state ∧
    (handleSubmit demoState "t" (.response 500 "oops")).2.1 =
      demoState := by
  constructor
  · exact (C6_reset_on_success_only demoState "t" (.response 200 "ok")).2.1
      (by decide)
  · exact (C6_reset_on_success_only demoState "t"
      (.response 500 "oops")).2.2 (by decide)

/-- C7: validation strips surrounding whitespace from name, email,
subject and complaint before constructing the submission, so two
inputs identical up to surrounding whitespace on a field produce the
same field value. -/
theorem C7_trim_fields (s1 s2 : FormState) (now1 now2 : String)
    (sub1 sub2 : ComplaintSubmission)
    (h1 : validate s1 now1 = .ok sub1)
    (h2 : validate s2 now2 = .ok sub2) :
    (sub1.name = pystrip s1.name_input ∧
     sub1.email = pystrip s1.email_input ∧
     sub1.subject = pystrip s1.subject_input ∧
     sub1.complaint = pystrip s1.complaint_input) ∧
    (pystrip s1.name_input = pystrip s2.name_input →
      sub1.name = sub2.name) ∧
    (pystrip s1.email_input = pystrip s2.email_input →
      sub1.email = sub2.email) ∧
    (pystrip s1.subject_input = pystrip s2.subject_input →
      sub1.subject = sub2.subject) ∧
    (pystrip s1.complaint_input = pystrip s2.complaint_input →
      sub1.complaint = sub2.complaint) := by
  obtain ⟨e1, -, -⟩ := validate_ok_eq s1 now1 sub1 h1
  obtain ⟨e2, -, -⟩ := validate_ok_eq s2 now2 sub2 h2
  subst e1
  subst e2
  refine ⟨⟨rfl, rfl, rfl, rfl⟩, ?_, ?_, ?_, ?_⟩ <;>
    · intro h
      simpa [form_data] using h

/-- A copy of the demo state whose name has no surrounding
whitespace. -/
def demoStateTrimmed : FormState := { demoState with name_input := "Jane" }

/-- C7 witness: the states with name " Jane " and "Jane" both validate
and produce the same name field, Jane. -/
theorem C7_trim_fields_witness :
    (form_data demoState "t").name = (form_data demoStateTrimmed "t").name
      ∧ (form_data demoState "t").name = "Jane" := by
  have h := C7_trim_fields demoState demoStateTrimmed "t" "t"
    (form_data demoState "t") (form_data demoStateTrimmed "t") rfl rfl
  exact ⟨h.2.1 (by decide), by decide⟩

/-- C8: every attachment built by the file loop has size_bytes at most
5,242,880 and size_bytes equal to the byte length of the
base64-decoded content_base64. -/
theorem C8_attachment_invariant (files : List UploadedFile)
    (hwf : ∀ f ∈ files, f.wf) (a : Attachment)
    (ha : a ∈ (processFiles files).2) :
    a.size_bytes ≤ 5242880 ∧
    (b64decodeChars a.content_base64.data).length = a.size_bytes := by
  obtain ⟨f, hf, hle, rfl⟩ := processFiles_mem_snd files a ha
  constructor
  · have h1 : (file_data f).size_bytes = f.content.length := rfl
    have h2 : max_file_size = 5242880 := rfl
    omega
  · show (b64decodeChars (b64encodeBytes f.content)).length
        = f.content.length
    rw [b64_roundtrip f.content (hwf f hf)]

/-- C8 witness: the demo file's attachment satisfies the size
invariant. -/
theorem C8_attachment_invariant_witness :
    (file_data demoFile).size_bytes ≤ 5242880 ∧
    (b64decodeChars (file_data demoFile).content_base64.data).length =
      (file_data demoFile).size_bytes :=
  C8_attachment_invariant [demoFile] (by decide) (file_data demoFile)
    (by decide)

/-- C9: for every accepted uploaded file, base64-decoding the
content_base64 of its attachment recovers exactly the original bytes,
and the attachments of a validated submission are exactly those the
file loop produced. -/
theorem C9_base64_roundtrip (files : List UploadedFile)
    (f : UploadedFile) (hwf : ∀ x ∈ f.content, x < 256) (hf : f ∈ files)
    (hle : f.content.length ≤ max_file_size) (s : FormState)
    (now : String) (sub : ComplaintSubmission)
    (hok : validate s now = .ok sub) :
    file_data f ∈ (processFiles files).2 ∧
    b64decodeChars (file_data f).content_base64.data = f.content ∧
    sub.attachments = (processFiles (s.uploaded_files.getD [])).2 := by
  obtain ⟨e, -, -⟩ := validate_ok_eq s now sub hok
  refine ⟨?_, ?_, by rw [e]; rfl⟩
  · rw [processFiles_snd]
    exact List.mem_map_of_mem _
      (List.mem_filter.mpr ⟨hf, by simpa using hle⟩)
  · show b64decodeChars (b64encodeBytes f.content) = f.content
    exact b64_roundtrip f.content hwf

/-- C9 witness: decoding the demo file's attachment recovers its
bytes, and the validated demo submission carries exactly the loop's
attachments. -/
theorem C9_base64_roundtrip_witness :
    file_data demoFile ∈ (processFiles [demoFile]).2 ∧
    b64decodeChars (file_data demoFile).content_base64.data =
      demoFile.content ∧
    (form_data demoState "t").attachments = (processFiles [demoFile]).2 :=
  C9_base64_roundtrip [demoFile] demoFile (by decide) (by decide)
    (by decide) demoState "t" (form_data demoState "t") rfl

/-- True exactly on the branch that reports a document-required error
for an attachment list left empty by size filtering. -/
def reachedFilteredEmptyBranch : ValidateResult → Bool
  | .attachmentEmptyAfterFilter => true
  | _ => false

/-- C10: the document-required branch guarding an attachment list left
empty by size filtering is dead code: validation never ends there,
because with at least one uploaded file an empty attachment list
forces a non-empty oversize error list, which is reported first. -/
theorem C10_filtered_empty_branch_dead (s : FormState) (now : String) :
    reachedFilteredEmptyBranch (validate s now) = false := by
  unfold validate
  split_ifs with h1 h2 h3 h4
  · rfl
  · rfl
  · rfl
  · exfalso
    have herr : (processFiles (s.uploaded_files.getD [])).1 = [] := by
      by_contra hne
      exact h3 hne
    have hatt : (processFiles (s.uploaded_files.getD [])).2.length = 0 :=
      h4
    have hlen := processFiles_length (s.uploaded_files.getD [])
    rw [herr, hatt] at hlen
    have hft : filesTruthy s.uploaded_files = true := by
      cases hft : filesTruthy s.uploaded_files
      · exact absurd (by simp [hft]) h2
      · rfl
    cases hu : s.uploaded_files with
    | none => rw [hu] at hft; exact absurd hft (by simp [filesTruthy])
    | some l =>
        rw [hu] at hft hlen
        have hae : l.isEmpty = false := by
          simpa [filesTruthy] using hft
        have hne : l ≠ [] := by
          simpa [List.isEmpty_iff] using hae
        have hl0 : l.length = 0 := by simpa using hlen.symm
        exact hne (List.length_eq_zero.mp hl0)
  · split <;> rfl

end ComplaintBox
